import Mathlib

/-!
Verification of the path sanitizer and S3 transfer layer of
Office-PowerPoint-MCP-Server.

Part 1 — shallow embedding of `utils/core_utils.py::sanitize_path`.

The embedding models a POSIX filesystem with no symbolic links, so
`pathlib.Path.resolve()` is the purely lexical normalization of `.` / `..`
segments (on a symlink-free tree, non-strict `resolve` is exactly that).
A canonical absolute path is represented as the list of its name segments
(`/home/user` ↦ `["home", "user"]`); the process working directory
(`os.getcwd()`, always canonical) is an explicit `cwd` parameter.
-/

/-- One chunk of a string split at `'/'` characters; mirrors how
`pathlib.PurePosixPath` cuts the raw string.  Structural recursion so that
the kernel can evaluate it on literals. -/
def splitSlash : List Char → List (List Char)
  | [] => [[]]
  | c :: rest =>
      if c = '/' then [] :: splitSlash rest
      else
        match splitSlash rest with
        | [] => [[c]]
        | a :: as => (c :: a) :: as

/-- A parsed (pure) path, as `pathlib.PurePath(file_path)` builds it: the
absolute flag (a leading `'/'`) and the component list.  `pathlib` drops
empty components and `"."` during parsing and keeps `".."`. -/
structure PurePath where
  absolute : Bool
  comps : List String
deriving DecidableEq, Repr

/-- Parsing a POSIX path string `s`, as `pathlib.PurePath(s)` does. -/
def parsePath (s : String) : PurePath :=
  { absolute := match s.data with | [] => false | c :: _ => c == '/'
    comps := ((splitSlash s.data).map (fun l => String.mk l)).filter
      (fun c => !(c == "" || c == ".")) }

/-- Lexical `..`/segment normalization: walking the components from a start
directory, `".."` drops the last segment (a no-op at the root, as POSIX
`/..` is `/`), any other component descends.  This is
`pathlib.Path.resolve()` on a symlink-free filesystem. -/
def resolveFrom (start : List String) (comps : List String) : List String :=
  comps.foldl (fun acc c => if c = ".." then acc.dropLast else acc ++ [c]) start

/-- Resolution `pathlib.Path(p).resolve()` relative to the working directory `cwd`:
an absolute path resolves from the root, a relative one from `cwd`. -/
def resolvePath (cwd : List String) (p : PurePath) : List String :=
  if p.absolute then resolveFrom [] p.comps else resolveFrom cwd p.comps

/-- Python `PurePath.name`: the final path component, `""` when there is none. -/
def pathName (p : PurePath) : String := p.comps.getLast?.getD ""

/-- Computation `base_path = pathlib.Path(base_dir).resolve()` with the Python default
`base_dir = os.getcwd()` (core_utils.py lines 79-83). -/
def basePathOf (cwd : List String) (base_dir : Option String) : List String :=
  match base_dir with
  | none => cwd
  | some s => resolvePath cwd (parsePath s)

/-- The candidate result of `sanitize_path` on the checked branch
(core_utils.py lines 92-97): an absolute input is re-rooted as
`(base_path / file_path_obj.name).resolve()`, a relative one is
`(base_path / file_path_obj).resolve()`. -/
def resolvedOf (cwd : List String) (base_dir : Option String) (file_path : String) :
    List String :=
  let base_path := basePathOf cwd base_dir
  let file_path_obj := parsePath file_path
  if file_path_obj.absolute then
    resolveFrom base_path (parsePath (pathName file_path_obj)).comps
  else
    resolveFrom base_path file_path_obj.comps

/-- The `ValueError` raised at core_utils.py lines 103-106.  The Python
message is an f-string interpolating the offending input, the resolved
path and the base directory; the embedding keeps the three interpolated
values as fields (see `TraversalError.message` for the rendered text). -/
structure TraversalError where
  offending : String
  resolved : List String
  base : List String
deriving DecidableEq, Repr

/-- Renders a canonical segment list as the POSIX path string. -/
def pathToString (segs : List String) : String :=
  "/" ++ String.intercalate "/" segs

/-- The exact text of the `ValueError` of core_utils.py lines 103-106. -/
def TraversalError.message (e : TraversalError) : String :=
  "Path traversal detected: '" ++ e.offending ++ "' resolves to '" ++
    pathToString e.resolved ++ "' which is outside the allowed directory '" ++
    pathToString e.base ++ "'"

/-- Embedding of `utils/core_utils.py::sanitize_path` (lines 60-108).  `cwd` models
`os.getcwd()`; `base_dir = none` is the Python default `base_dir=None`.
Success returns the canonical absolute result path, failure is the
`ValueError` of lines 103-106. -/
def sanitize_path (file_path : String) (cwd : List String)
    (base_dir : Option String := none) (allow_absolute : Bool := false) :
    Except TraversalError (List String) :=
  let base_path := basePathOf cwd base_dir
  let file_path_obj := parsePath file_path
  -- lines 88-90: absolute path allowed through untouched (resolved)
  if allow_absolute && file_path_obj.absolute then
    .ok (resolvePath cwd file_path_obj)
  else
    -- lines 92-97: join (re-rooting a disallowed absolute path), then resolve
    let resolved_path := resolvedOf cwd base_dir file_path
    -- lines 99-106: containment check on the canonicalized result
    if base_path.isPrefixOf resolved_path then .ok resolved_path
    else .error ⟨file_path, resolved_path, base_path⟩

/-! ### Facts about path parsing and resolution -/

theorem splitSlash_ne_nil (cs : List Char) : splitSlash cs ≠ [] := by
  induction cs with
  | nil => simp [splitSlash]
  | cons c rest ih =>
      unfold splitSlash
      split
      · simp
      · split
        · simp
        · simp

theorem not_slash_of_mem_splitSlash {cs l : List Char}
    (h : l ∈ splitSlash cs) : '/' ∉ l := by
  induction cs generalizing l with
  | nil =>
      simp [splitSlash] at h
      subst h; simp
  | cons c rest ih =>
      by_cases hc : c = '/'
      · rw [splitSlash, if_pos hc] at h
        rcases List.mem_cons.mp h with h | h
        · subst h; simp
        · exact ih h
      · rw [splitSlash, if_neg hc] at h
        cases hrest : splitSlash rest with
        | nil => exact absurd hrest (splitSlash_ne_nil rest)
        | cons a as =>
            rw [hrest] at h
            rcases List.mem_cons.mp h with h | h
            · subst h
              intro hmem
              rcases List.mem_cons.mp hmem with h' | h'
              · exact hc h'.symm
              · exact ih (hrest ▸ List.mem_cons_self a as) h'
            · exact ih (hrest ▸ List.mem_cons_of_mem a h)

theorem splitSlash_no_slash {cs : List Char} (h : '/' ∉ cs) : splitSlash cs = [cs] := by
  induction cs with
  | nil => rfl
  | cons c rest ih =>
      have hc : c ≠ '/' := fun e => h (e ▸ List.mem_cons_self c rest)
      have hrest : '/' ∉ rest := fun m => h (List.mem_cons_of_mem c m)
      rw [splitSlash, if_neg hc, ih hrest]

theorem isPrefixOf_self (l : List String) : l.isPrefixOf l = true := by
  induction l with
  | nil => rfl
  | cons a as ih => simp [List.isPrefixOf, ih]

theorem isPrefixOf_append_single (l : List String) (x : String) :
    l.isPrefixOf (l ++ [x]) = true := by
  induction l with
  | nil => rfl
  | cons a as ih => simp [List.isPrefixOf, ih]

theorem mem_comps_parsePath {s c : String} (h : c ∈ (parsePath s).comps) :
    c ≠ "" ∧ c ≠ "." ∧ '/' ∉ c.data := by
  unfold parsePath at h
  rcases List.mem_filter.mp h with ⟨hmem, hpred⟩
  rcases List.mem_map.mp hmem with ⟨l, hl, rfl⟩
  refine ⟨?_, ?_, not_slash_of_mem_splitSlash hl⟩
  · intro e
    rw [e] at hpred
    simp at hpred
  · intro e
    rw [e] at hpred
    simp at hpred

theorem parsePath_single {name : String} (h0 : name ≠ "") (h1 : name ≠ ".")
    (h2 : '/' ∉ name.data) : parsePath name = ⟨false, [name]⟩ := by
  have habs : (match name.data with | [] => false | c :: _ => c == '/') = false := by
    cases hd : name.data with
    | nil => rfl
    | cons c rest =>
        have hc : c ≠ '/' := fun e => h2 (hd ▸ (e ▸ List.mem_cons_self c rest))
        simp [hc]
  have hsplit : splitSlash name.data = [name.data] := splitSlash_no_slash h2
  unfold parsePath
  rw [habs, hsplit]
  have : String.mk name.data = name := rfl
  simp [this, h0, h1]

/-- The segments contributed by `file_path_obj.name` when an absolute path is
re-rooted under the base directory: nothing when the path has no final
component (e.g. `"/"`), otherwise the single final component. -/
def nameSegs (p : PurePath) : List String :=
  match p.comps.getLast? with
  | none => []
  | some n => [n]

/-! ### Claims C1-C3 -/

/-- C1: with `allow_absolute = false` (the default), whenever the
canonicalized resolution of the input against the base directory
(`resolvedOf`, which normalizes `..` segments before any check) is not
equal to or a descendant of the canonical base directory, `sanitize_path`
fails with the path-traversal `ValueError`, whose payload names the
offending input and the base directory.  The containment check is applied
to the already-canonicalized `resolvedOf`, i.e. canonicalization happens
before the containment check. -/
theorem sanitize_path_rejects_traversal (file_path : String) (cwd : List String)
    (base_dir : Option String)
    (h : (basePathOf cwd base_dir).isPrefixOf (resolvedOf cwd base_dir file_path) = false) :
    sanitize_path file_path cwd base_dir false =
      .error ⟨file_path, resolvedOf cwd base_dir file_path, basePathOf cwd base_dir⟩ := by
  simp [sanitize_path, h]

/-- Witness for C1: the spec's own example `sanitize("../../../../etc/passwd")`
with default arguments, from working directory `/home/user`, escapes to
`/etc/passwd` and is rejected with an error naming input and base. -/
theorem sanitize_path_rejects_traversal_witness :
    (["home", "user"].isPrefixOf
        (resolvedOf ["home", "user"] none "../../../../etc/passwd") = false) ∧
    sanitize_path "../../../../etc/passwd" ["home", "user"] none false =
      .error ⟨"../../../../etc/passwd", ["etc", "passwd"], ["home", "user"]⟩ :=
  ⟨rfl, sanitize_path_rejects_traversal "../../../../etc/passwd" ["home", "user"] none rfl⟩

/-- C2 counterexample: the claim says every absolute input with
`allow_absolute = false` degrades gracefully to a successful result.  The
input `"/.."` is absolute, but its final component (`PurePath.name`) is
`".."`, so the code re-roots it as `base_dir/..`, which canonicalizes to
the parent of the base directory and is rejected with a traversal error
instead of succeeding. -/
theorem sanitize_path_absolute_slash_dotdot_fails :
    sanitize_path "/.." ["home", "user"] none false =
      .error ⟨"/..", ["home"], ["home", "user"]⟩ := rfl

/-- C2 amended: for every absolute input path whose final component is not
`".."`, `sanitize_path` with `allow_absolute = false` discards the
directory component and succeeds, returning the final component re-rooted
under the base directory (the base directory itself when the input has no
final component, e.g. `"/"`). -/
theorem sanitize_path_absolute_reroots (file_path : String) (cwd : List String)
    (base_dir : Option String)
    (habs : (parsePath file_path).absolute = true)
    (hname : pathName (parsePath file_path) ≠ "..") :
    sanitize_path file_path cwd base_dir false =
      .ok (basePathOf cwd base_dir ++ nameSegs (parsePath file_path)) := by
  rcases hlast : (parsePath file_path).comps.getLast? with _ | n
  · have hname0 : pathName (parsePath file_path) = "" := by
      simp [pathName, hlast]
    have hempty : (parsePath "").comps = [] := rfl
    have hres : resolvedOf cwd base_dir file_path = basePathOf cwd base_dir := by
      simp [resolvedOf, habs, hname0, hempty, resolveFrom]
    have hpre : (basePathOf cwd base_dir).isPrefixOf
        (basePathOf cwd base_dir) = true := isPrefixOf_self _
    simp [sanitize_path, hres, hpre, nameSegs, hlast]
  · have hmem : n ∈ (parsePath file_path).comps := List.mem_of_mem_getLast? hlast
    obtain ⟨hne, hnd, hns⟩ := mem_comps_parsePath hmem
    have hnamen : pathName (parsePath file_path) = n := by
      simp [pathName, hlast]
    have hp1 : parsePath n = ⟨false, [n]⟩ := parsePath_single hne hnd hns
    have hn2 : n ≠ ".." := hnamen ▸ hname
    have hres : resolvedOf cwd base_dir file_path =
        basePathOf cwd base_dir ++ [n] := by
      simp [resolvedOf, habs, hnamen, hp1, resolveFrom, hn2]
    have hpre : (basePathOf cwd base_dir).isPrefixOf
        (basePathOf cwd base_dir ++ [n]) = true := isPrefixOf_append_single _ _
    simp [sanitize_path, hres, hpre, nameSegs, hlast]

/-- Witness for the amended C2: the spec's example
`sanitize("/tmp/test.pptx", allow_absolute=false)` from base `/home/user`
keeps only the filename and succeeds with `base_dir/test.pptx`. -/
theorem sanitize_path_absolute_reroots_witness :
    (parsePath "/tmp/test.pptx").absolute = true ∧
    pathName (parsePath "/tmp/test.pptx") ≠ ".." ∧
    sanitize_path "/tmp/test.pptx" ["home", "user"] none false =
      .ok ["home", "user", "test.pptx"] :=
  ⟨rfl, by decide,
    sanitize_path_absolute_reroots "/tmp/test.pptx" ["home", "user"] none rfl (by decide)⟩

/-- C3: the empty-string input, with the default base directory (the
working directory) and `allow_absolute = false`, succeeds and returns the
canonical base directory itself. -/
theorem sanitize_path_empty_input (cwd : List String) :
    sanitize_path "" cwd none false = .ok cwd := by
  have hres : resolvedOf cwd none "" = cwd := rfl
  have hpre : cwd.isPrefixOf cwd = true := isPrefixOf_self _
  simp [sanitize_path, basePathOf, hres, hpre]

/-!
Part 2 — shallow embedding of the S3 transfer layer:
`utils/s3_utils.py` and the tool layer `tools/s3_tools.py` /
`tools/s3_xlsx_tools.py`.

The two third-party collaborators are modelled from the spec (they are not
code of this repository):

* the document library (python-pptx) is, per spec §6 and §9, an opaque
  serializable handle with slide count and title text and a
  serialize/deserialize byte boundary;
* the storage client (boto3) is a bucket/key store that raises
  `NoCredentialsError` when it cannot authenticate the client and
  `ClientError` codes such as `NoSuchKey` / `NoSuchBucket` / `404` for
  absent resources (spec §6).  Every client call is appended to a call
  log so that "no network call was attempted" is expressible as equality
  of backend states.

Python exceptions become the `Except PyError` monad; a tool whose Lean
embedding returns a bare result pair cannot let an exception escape, while
`build_slides_from_s3_xlsx` returns `Except PyError _` because its body
has uncaught raising calls.
-/

/-- A byte buffer (`io.BytesIO` contents). -/
abbrev Bytes := List Nat

/-- The document handle, modelled per spec §9 with the narrow capability
set the transfer contract needs: slide count and first-slide title text. -/
structure Presentation where
  slideCount : Nat
  titleText : String
deriving DecidableEq, Repr

/-- Modelled from the spec: `presentation.save(buffer)` of the document
library collaborator (§6), a serialize-to-bytes boundary. -/
def pptxSave (p : Presentation) : Bytes :=
  p.slideCount :: p.titleText.data.map Char.toNat

/-- Modelled from the spec: `Presentation(buffer)` of the document library
collaborator (§6), the deserialize-from-bytes boundary; fails (raises) on
a buffer that is not a serialized document. -/
def pptxOpen (b : Bytes) : Option Presentation :=
  match b with
  | [] => none
  | n :: rest => some ⟨n, String.mk (rest.map Char.ofNat)⟩

theorem pptxOpen_pptxSave (p : Presentation) : pptxOpen (pptxSave p) = some p := by
  obtain ⟨n, t⟩ := p
  simp only [pptxOpen, pptxSave, List.map_map]
  have : (t.data.map (Char.ofNat ∘ Char.toNat)) = t.data := by
    simp [Function.comp_def, Char.ofNat_toNat]
  rw [this]

/-- Association-list lookup, modelling Python `dict` access / `in`. -/
def alookup {α : Type} (k : String) : List (String × α) → Option α
  | [] => none
  | (k', v) :: rest => if k' = k then some v else alookup k rest

/-- Association-list update, modelling Python `d[k] = v`. -/
def aset {α : Type} (k : String) (v : α) : List (String × α) → List (String × α)
  | [] => [(k, v)]
  | (k', v') :: rest => if k' = k then (k, v) :: rest else (k', v') :: aset k v rest

/-- Association-list removal, modelling Python `del d[k]` (no-op when the
key is absent, like S3 object deletion). -/
def aremove {α : Type} (k : String) : List (String × α) → List (String × α)
  | [] => []
  | (k', v') :: rest => if k' = k then rest else (k', v') :: aremove k rest

theorem alookup_aset_self {α : Type} (k : String) (v : α) (l : List (String × α)) :
    alookup k (aset k v l) = some v := by
  induction l with
  | nil => simp [aset, alookup]
  | cons hd t ih =>
      obtain ⟨k', v'⟩ := hd
      by_cases e : k' = k
      · simp [aset, alookup, e]
      · simp [aset, alookup, e, ih]

/-- One stored object: body bytes, content type, and the metadata attached
at upload, plus the backend-assigned timestamp/etag surfaced by list/head. -/
structure S3Object where
  body : Bytes
  contentType : String
  lastModified : String
  etag : String
  metadata : List (String × String)
deriving DecidableEq, Repr

/-- Modelled from the spec: the state of the storage collaborator (§6) — a
set of credential pairs it accepts, buckets of keyed objects, and a log of
every client call that reached the backend. -/
structure S3State where
  validKeys : List (String × String)
  buckets : List (String × List (String × S3Object))
  calls : List String
deriving DecidableEq, Repr

/-- A configured boto3 S3 client (`create_s3_client`, s3_utils.py 13-40):
it only carries its configuration; whether its credentials are accepted is
decided by the backend at call time. -/
structure Client where
  endpoint_url : String
  access_key : String
  secret_key : String
  region : String
deriving DecidableEq, Repr

/-- Embedding of `utils/s3_utils.py::create_s3_client` (lines 13-40):
`region` defaults to `us-east-1`. -/
def create_s3_client (endpoint_url access_key secret_key : String)
    (region : Option String := none) : Client :=
  ⟨endpoint_url, access_key, secret_key, region.getD "us-east-1"⟩

/-- Outcome of one boto3 client call: a value, a `NoCredentialsError`, or a
`ClientError` carrying `e.response['Error']['Code']` and `['Message']`. -/
inductive BotoOutcome (α : Type) where
  | ok : α → BotoOutcome α
  | noCredentials : BotoOutcome α
  | clientError : String → String → BotoOutcome α
deriving Repr

/-- Records that a client call reached the backend. -/
def logCall (st : S3State) (name : String) : S3State :=
  { st with calls := st.calls ++ [name] }

/-- Modelled from the spec: the backend's `put_object` (§6).  Requires
accepted credentials and an existing bucket; stores the full body under
the key (metadata omitted from the request becomes empty stored
metadata). -/
def s3_put_object (c : Client) (st : S3State) (bucket key : String)
    (body : Bytes) (ctype : String) (md : Option (List (String × String))) :
    BotoOutcome Unit × S3State :=
  let stL := logCall st "put_object"
  if (c.access_key, c.secret_key) ∈ st.validKeys then
    match alookup bucket st.buckets with
    | none => (.clientError "NoSuchBucket" "The specified bucket does not exist", stL)
    | some objs =>
        let obj : S3Object := ⟨body, ctype, "1970-01-01T00:00:00", "d41d8cd9", md.getD []⟩
        (.ok (), { stL with buckets := aset bucket (aset key obj objs) st.buckets })
  else (.noCredentials, stL)

/-- Modelled from the spec: the backend's fetch-into-buffer call
(`download_fileobj`, §6), reporting `NoSuchKey` / `NoSuchBucket` for
absent resources. -/
def s3_download_fileobj (c : Client) (st : S3State) (bucket key : String) :
    BotoOutcome Bytes × S3State :=
  let stL := logCall st "download_fileobj"
  if (c.access_key, c.secret_key) ∈ st.validKeys then
    match alookup bucket st.buckets with
    | none => (.clientError "NoSuchBucket" "The specified bucket does not exist", stL)
    | some objs =>
        match alookup key objs with
        | none => (.clientError "NoSuchKey" "The specified key does not exist.", stL)
        | some o => (.ok o.body, stL)
  else (.noCredentials, stL)

/-- Modelled from the spec: the backend's `get_object` (§6), as used by the
xlsx tool; same failure behavior as the fetch-into-buffer call. -/
def s3_get_object (c : Client) (st : S3State) (bucket key : String) :
    BotoOutcome Bytes × S3State :=
  let stL := logCall st "get_object"
  if (c.access_key, c.secret_key) ∈ st.validKeys then
    match alookup bucket st.buckets with
    | none => (.clientError "NoSuchBucket" "The specified bucket does not exist", stL)
    | some objs =>
        match alookup key objs with
        | none => (.clientError "NoSuchKey" "The specified key does not exist.", stL)
        | some o => (.ok o.body, stL)
  else (.noCredentials, stL)

/-- Response of `list_objects_v2`: the (possibly truncated) contents and
the `IsTruncated` flag. -/
structure ListResponse where
  contents : List (String × S3Object)
  isTruncated : Bool
deriving DecidableEq, Repr

/-- Boolean string start-test (`key.startswith(p)` on the backend side). -/
def strStartsWith (s p : String) : Bool := p.data.isPrefixOf s.data

/-- Modelled from the spec: the backend's `list_objects_v2` (§6), filtering
by the optional key start string and capping at `max_keys`. -/
def s3_list_objects_v2 (c : Client) (st : S3State) (bucket : String)
    (pfx : Option String) (max_keys : Nat) : BotoOutcome ListResponse × S3State :=
  let stL := logCall st "list_objects_v2"
  if (c.access_key, c.secret_key) ∈ st.validKeys then
    match alookup bucket st.buckets with
    | none => (.clientError "NoSuchBucket" "The specified bucket does not exist", stL)
    | some objs =>
        let entries := match pfx with
          | none => objs
          | some p => objs.filter (fun kv => strStartsWith kv.1 p)
        (.ok ⟨entries.take max_keys, decide (max_keys < entries.length)⟩, stL)
  else (.noCredentials, stL)

/-- Modelled from the spec: the backend's `delete_object` (§6); deleting an
absent key succeeds (idempotent), an absent bucket is a client error. -/
def s3_delete_object (c : Client) (st : S3State) (bucket key : String) :
    BotoOutcome Unit × S3State :=
  let stL := logCall st "delete_object"
  if (c.access_key, c.secret_key) ∈ st.validKeys then
    match alookup bucket st.buckets with
    | none => (.clientError "NoSuchBucket" "The specified bucket does not exist", stL)
    | some objs =>
        (.ok (), { stL with buckets := aset bucket (aremove key objs) st.buckets })
  else (.noCredentials, stL)

/-- Modelled from the spec: the backend's `head_object` (§6); an absent
object or bucket is reported with the HTTP-style error code `404`. -/
def s3_head_object (c : Client) (st : S3State) (bucket key : String) :
    BotoOutcome S3Object × S3State :=
  let stL := logCall st "head_object"
  if (c.access_key, c.secret_key) ∈ st.validKeys then
    match alookup bucket st.buckets with
    | none => (.clientError "404" "Not Found", stL)
    | some objs =>
        match alookup key objs with
        | none => (.clientError "404" "Not Found", stL)
        | some o => (.ok o, stL)
  else (.noCredentials, stL)

/-- A Python exception as the transfer layer raises and catches them. -/
inductive PyError where
  | valueError : String → PyError
  | fileNotFoundError : String → PyError
  | exception : String → PyError
  | botoClientError : String → String → PyError
  | noCredentialsError : PyError
deriving DecidableEq, Repr

/-- Python `str(e)` on an exception, as interpolated into f-strings. -/
def PyError.str : PyError → String
  | .valueError m => m
  | .fileNotFoundError m => m
  | .exception m => m
  | .botoClientError code m =>
      "An error occurred (" ++ code ++ ") when calling the operation: " ++ m
  | .noCredentialsError => "Unable to locate credentials"

/-- A value stored in one of the result dictionaries the tools return. -/
inductive V where
  | s : String → V
  | n : Nat → V
  | b : Bool → V
  | vlist : List V → V
  | vdict : List (String × V) → V

/-- A Python result dictionary (insertion-ordered key/value pairs). -/
abbrev Dict := List (String × V)

/-- Key set of a result dictionary. -/
def resKeys (d : Dict) : List String := d.map Prod.fst

/-- The fixed MIME type used for uploads (s3_utils.py line 78). -/
def contentTypePptx : String :=
  "application/vnd.openxmlformats-officedocument.presentationml.presentation"

namespace s3_utils

/-- Embedding of `utils/s3_utils.py::upload_presentation_to_s3` (lines
43-107): serialize to a buffer, `put_object`, measure the buffer length by
seeking to its end, and build the result dictionary; `NoCredentialsError`
becomes a `ValueError`, a `ClientError` becomes a generic `Exception`
carrying code and message.  Per the Python `if metadata:` test, both
`None` and an empty mapping omit the `Metadata` field from the request. -/
def upload_presentation_to_s3 (presentation : Presentation) (s3_client : Client)
    (st : S3State) (bucket_name object_key : String)
    (metadata : Option (List (String × String)) := none) :
    Except PyError Dict × S3State :=
  let buffer := pptxSave presentation
  let md := match metadata with
    | none => none
    | some m => if m.isEmpty then none else some m
  let call := s3_put_object s3_client st bucket_name object_key buffer contentTypePptx md
  match call.1 with
  | .ok _ =>
      let size := buffer.length
      (.ok [("success", V.b true), ("bucket", V.s bucket_name), ("key", V.s object_key),
            ("size_bytes", V.n size),
            ("message", V.s ("Successfully uploaded presentation to s3://" ++
              bucket_name ++ "/" ++ object_key))], call.2)
  | .noCredentials => (.error (.valueError "Invalid S3 credentials provided"), call.2)
  | .clientError code msg =>
      (.error (.exception ("S3 upload failed (" ++ code ++ "): " ++ msg)), call.2)

/-- Embedding of `utils/s3_utils.py::download_presentation_from_s3` (lines
110-154): fetch into a buffer and deserialize; `NoSuchKey` / `NoSuchBucket`
client errors become `FileNotFoundError`, `NoCredentialsError` becomes a
`ValueError`, anything else a generic `Exception`. -/
def download_presentation_from_s3 (s3_client : Client) (st : S3State)
    (bucket_name object_key : String) : Except PyError Presentation × S3State :=
  let call := s3_download_fileobj s3_client st bucket_name object_key
  match call.1 with
  | .ok body =>
      match pptxOpen body with
      | some presentation => (.ok presentation, call.2)
      | none =>
          (.error (.exception "Failed to download presentation from S3: Package not found"),
           call.2)
  | .noCredentials => (.error (.valueError "Invalid S3 credentials provided"), call.2)
  | .clientError code msg =>
      if code = "NoSuchKey" then
        (.error (.fileNotFoundError ("Object not found: s3://" ++ bucket_name ++ "/" ++
          object_key)), call.2)
      else if code = "NoSuchBucket" then
        (.error (.fileNotFoundError ("Bucket not found: " ++ bucket_name)), call.2)
      else
        (.error (.exception ("S3 download failed (" ++ code ++ "): " ++ msg)), call.2)

/-- Embedding of `utils/s3_utils.py::list_s3_objects` (lines 157-216).  Per
the Python `if prefix:` test, `None` and `""` both omit the `Prefix`
argument; the result's `prefix` field is `prefix or ""`.  There is no
`NoCredentialsError` handler here, so that outcome falls to the generic
`except Exception` branch. -/
def list_s3_objects (s3_client : Client) (st : S3State) (bucket_name : String)
    (pfx : Option String := none) (max_keys : Nat := 100) :
    Except PyError Dict × S3State :=
  let effPfx := match pfx with
    | none => none
    | some p => if p = "" then none else some p
  let call := s3_list_objects_v2 s3_client st bucket_name effPfx max_keys
  match call.1 with
  | .ok resp =>
      let objects := resp.contents.map (fun kv =>
        V.vdict [("key", V.s kv.1), ("size_bytes", V.n kv.2.body.length),
                 ("last_modified", V.s kv.2.lastModified), ("etag", V.s kv.2.etag)])
      (.ok [("bucket", V.s bucket_name),
            ("prefix", V.s ((pfx).getD "")),
            ("object_count", V.n objects.length),
            ("objects", V.vlist objects),
            ("is_truncated", V.b resp.isTruncated)], call.2)
  | .noCredentials =>
      (.error (.exception ("Failed to list S3 objects: " ++
        PyError.noCredentialsError.str)), call.2)
  | .clientError code msg =>
      if code = "NoSuchBucket" then
        (.error (.fileNotFoundError ("Bucket not found: " ++ bucket_name)), call.2)
      else
        (.error (.exception ("S3 list failed (" ++ code ++ "): " ++ msg)), call.2)

/-- Embedding of `utils/s3_utils.py::delete_s3_object` (lines 219-253): any
`ClientError` becomes a generic `Exception`; `NoCredentialsError` falls to
the generic handler. -/
def delete_s3_object (s3_client : Client) (st : S3State)
    (bucket_name object_key : String) : Except PyError Dict × S3State :=
  let call := s3_delete_object s3_client st bucket_name object_key
  match call.1 with
  | .ok _ =>
      (.ok [("success", V.b true), ("bucket", V.s bucket_name), ("key", V.s object_key),
            ("message", V.s ("Successfully deleted s3://" ++ bucket_name ++ "/" ++
              object_key))], call.2)
  | .noCredentials =>
      (.error (.exception ("Failed to delete S3 object: " ++
        PyError.noCredentialsError.str)), call.2)
  | .clientError code msg =>
      (.error (.exception ("S3 delete failed (" ++ code ++ "): " ++ msg)), call.2)

/-- Embedding of `utils/s3_utils.py::get_s3_object_metadata` (lines
256-297): a `404` or `NoSuchKey` client error becomes `FileNotFoundError`;
`NoCredentialsError` falls to the generic handler. -/
def get_s3_object_metadata (s3_client : Client) (st : S3State)
    (bucket_name object_key : String) : Except PyError Dict × S3State :=
  let call := s3_head_object s3_client st bucket_name object_key
  match call.1 with
  | .ok o =>
      (.ok [("bucket", V.s bucket_name), ("key", V.s object_key),
            ("size_bytes", V.n o.body.length), ("last_modified", V.s o.lastModified),
            ("content_type", V.s o.contentType), ("etag", V.s o.etag),
            ("metadata", V.vdict (o.metadata.map (fun kv => (kv.1, V.s kv.2))))], call.2)
  | .noCredentials =>
      (.error (.exception ("Failed to get S3 object metadata: " ++
        PyError.noCredentialsError.str)), call.2)
  | .clientError code msg =>
      if code = "404" ∨ code = "NoSuchKey" then
        (.error (.fileNotFoundError ("Object not found: s3://" ++ bucket_name ++ "/" ++
          object_key)), call.2)
      else
        (.error (.exception ("S3 head object failed (" ++ code ++ "): " ++ msg)), call.2)

end s3_utils

/-- The server-side context a registered tool closes over: the global
`_s3_clients` cache (s3_tools.py line 11), the `presentations` registry and
current-presentation id passed to `register_s3_tools`, the module-level
environment-credential client of s3_xlsx_tools.py (line 28), and the
storage backend state. -/
structure ToolEnv where
  s3_clients : List (String × Client)
  presentations : List (String × Presentation)
  current_id : Option String
  env_client : Client
  s3 : S3State
deriving Repr

namespace s3_tools

/-- The connection-not-configured error text (s3_tools.py, e.g. lines
94-97). -/
def connectionNotFoundMsg (connection_name : String) : String :=
  "S3 connection '" ++ connection_name ++
    "' not found. Please configure it first using configure_s3_connection."

/-- Embedding of the `configure_s3_connection` tool (s3_tools.py lines
17-70): build a client and store it under the connection name. -/
def configure_s3_connection (env : ToolEnv)
    (connection_name endpoint_url access_key secret_key : String)
    (region : Option String := none) : Dict × ToolEnv :=
  let s3_client := create_s3_client endpoint_url access_key secret_key region
  ([("success", V.b true), ("connection_name", V.s connection_name),
    ("endpoint_url", V.s endpoint_url), ("region", V.s (region.getD "us-east-1")),
    ("message", V.s ("S3 connection '" ++ connection_name ++
      "' configured successfully"))],
   { env with s3_clients := aset connection_name s3_client env.s3_clients })

/-- Embedding of the `upload_presentation_to_s3` tool (s3_tools.py lines
72-124): connection check, presentation check, then the util call with all
exceptions converted to an error dictionary. -/
def upload_presentation_to_s3 (env : ToolEnv) (bucket_name object_key : String)
    (connection_name : String := "default") (presentation_id : Option String := none)
    (metadata : Option (List (String × String)) := none) : Dict × ToolEnv :=
  match alookup connection_name env.s3_clients with
  | none => ([("error", V.s (connectionNotFoundMsg connection_name))], env)
  | some s3_client =>
      let pres_id := match presentation_id with
        | some i => some i
        | none => env.current_id
      match pres_id with
      | none =>
          ([("error", V.s "No presentation is currently loaded or the specified ID is invalid")],
           env)
      | some pid =>
          match alookup pid env.presentations with
          | none =>
              ([("error", V.s "No presentation is currently loaded or the specified ID is invalid")],
               env)
          | some presentation =>
              let call := s3_utils.upload_presentation_to_s3 presentation s3_client env.s3
                bucket_name object_key metadata
              match call.1 with
              | .ok result =>
                  (aset "connection_name" (V.s connection_name)
                     (aset "presentation_id" (V.s pid) result),
                   { env with s3 := call.2 })
              | .error e =>
                  ([("error", V.s ("Failed to upload presentation: " ++ e.str))],
                   { env with s3 := call.2 })

/-- Embedding of the `download_presentation_from_s3` tool (s3_tools.py
lines 126-183): connection check, util call, id assignment (generated as
`presentation_N` when absent), registry insertion, result dictionary;
`FileNotFoundError` surfaces verbatim, other exceptions are wrapped. -/
def download_presentation_from_s3 (env : ToolEnv) (bucket_name object_key : String)
    (connection_name : String := "default") (id : Option String := none) :
    Dict × ToolEnv :=
  match alookup connection_name env.s3_clients with
  | none => ([("error", V.s (connectionNotFoundMsg connection_name))], env)
  | some s3_client =>
      let call := s3_utils.download_presentation_from_s3 s3_client env.s3
        bucket_name object_key
      match call.1 with
      | .ok pres =>
          let id' := match id with
            | some i => i
            | none => "presentation_" ++ toString (env.presentations.length + 1)
          ([("success", V.b true), ("presentation_id", V.s id'),
            ("bucket", V.s bucket_name), ("key", V.s object_key),
            ("connection_name", V.s connection_name),
            ("slide_count", V.n pres.slideCount),
            ("message", V.s ("Successfully downloaded presentation from s3://" ++
              bucket_name ++ "/" ++ object_key))],
           { env with presentations := aset id' pres env.presentations, s3 := call.2 })
      | .error (.fileNotFoundError m) =>
          ([("error", V.s m)], { env with s3 := call.2 })
      | .error e =>
          ([("error", V.s ("Failed to download presentation: " ++ e.str))],
           { env with s3 := call.2 })

/-- Embedding of the `list_s3_presentations` tool (s3_tools.py lines
185-224): connection check, util call, every exception (including
`FileNotFoundError`) wrapped into an error dictionary. -/
def list_s3_presentations (env : ToolEnv) (bucket_name : String)
    (connection_name : String := "default") (pfx : Option String := none)
    (max_keys : Nat := 100) : Dict × ToolEnv :=
  match alookup connection_name env.s3_clients with
  | none => ([("error", V.s (connectionNotFoundMsg connection_name))], env)
  | some s3_client =>
      let call := s3_utils.list_s3_objects s3_client env.s3 bucket_name pfx max_keys
      match call.1 with
      | .ok result =>
          (aset "connection_name" (V.s connection_name) result, { env with s3 := call.2 })
      | .error e =>
          ([("error", V.s ("Failed to list S3 objects: " ++ e.str))],
           { env with s3 := call.2 })

/-- Embedding of the `delete_s3_presentation` tool (s3_tools.py lines
226-262). -/
def delete_s3_presentation (env : ToolEnv) (bucket_name object_key : String)
    (connection_name : String := "default") : Dict × ToolEnv :=
  match alookup connection_name env.s3_clients with
  | none => ([("error", V.s (connectionNotFoundMsg connection_name))], env)
  | some s3_client =>
      let call := s3_utils.delete_s3_object s3_client env.s3 bucket_name object_key
      match call.1 with
      | .ok result =>
          (aset "connection_name" (V.s connection_name) result, { env with s3 := call.2 })
      | .error e =>
          ([("error", V.s ("Failed to delete S3 object: " ++ e.str))],
           { env with s3 := call.2 })

/-- Embedding of the `get_s3_presentation_info` tool (s3_tools.py lines
264-304): `FileNotFoundError` surfaces verbatim, other exceptions are
wrapped. -/
def get_s3_presentation_info (env : ToolEnv) (bucket_name object_key : String)
    (connection_name : String := "default") : Dict × ToolEnv :=
  match alookup connection_name env.s3_clients with
  | none => ([("error", V.s (connectionNotFoundMsg connection_name))], env)
  | some s3_client =>
      let call := s3_utils.get_s3_object_metadata s3_client env.s3 bucket_name object_key
      match call.1 with
      | .ok result =>
          (aset "connection_name" (V.s connection_name) result, { env with s3 := call.2 })
      | .error (.fileNotFoundError m) =>
          ([("error", V.s m)], { env with s3 := call.2 })
      | .error e =>
          ([("error", V.s ("Failed to get S3 object metadata: " ++ e.str))],
           { env with s3 := call.2 })

/-- Embedding of the `list_s3_connections` tool (s3_tools.py lines
306-317). -/
def list_s3_connections (env : ToolEnv) : Dict × ToolEnv :=
  ([("connections", V.vlist (env.s3_clients.map (fun kv => V.s kv.1))),
    ("count", V.n env.s3_clients.length)], env)

end s3_tools

namespace s3_xlsx_tools

/-- Splitting a byte list at a separator byte, used by the workbook
decoding model. -/
def splitListNat (sep : Nat) : List Nat → List (List Nat)
  | [] => [[]]
  | x :: rest =>
      if x = sep then [] :: splitListNat sep rest
      else
        match splitListNat sep rest with
        | [] => [[x]]
        | a :: as => (x :: a) :: as

/-- Modelled from the spec: the xlsx side of the document-library
collaborator (`load_workbook` + `ws.values`, s3_xlsx_tools.py lines
48-52).  Spreadsheet parsing is out of the spec's scope (§1), so a
workbook is modelled as rows of string cells decoded from the byte
stream (byte 0 separates rows, byte 1 separates cells); decoding is total
and the optional sheet name does not change the model. -/
def load_workbook_rows (b : Bytes) : List (List String) :=
  (splitListNat 0 b).map (fun row =>
    (splitListNat 1 row).map (fun cell => String.mk (cell.map Char.ofNat)))

/-- Modelled from the spec: the `_numlike` helper (s3_xlsx_tools.py lines
61-64), approximating `float(v)` succeeding by a nonempty digits-and-dot
string; an out-of-scope detail (§1) used only for y-column guessing. -/
def numLike (s : String) : Bool :=
  !s.data.isEmpty && s.data.all (fun ch => ch.isDigit || ch == '.')

/-- Row-to-record dictionary `{h: r[i] for i, h in enumerate(header)}`
(s3_xlsx_tools.py line 55), with openpyxl's missing-cell padding modelled
as the empty string. -/
def recordOf (header row : List String) : List (String × String) :=
  (List.range header.length).map (fun i => (header.getD i "", row.getD i ""))

/-- Embedding of the `build_slides_from_s3_xlsx` tool (s3_xlsx_tools.py
lines 31-115).  Unlike every tool of s3_tools.py, its body is NOT wrapped
in try/except: the `s3.get_object` call of line 44 can raise a
`ClientError` or `NoCredentialsError` that escapes the tool, which the
`Except` result type records as an `.error`.  The chart/table construction
only adds slides, so in the document model it increments the slide count
of the current presentation (by 2 with the optional table slide, else 1). -/
def build_slides_from_s3_xlsx (env : ToolEnv) (bucket key : String)
    (sheet : Option String := none) (x_col : Option String := none)
    (y_cols : Option (List String) := none) (add_table : Bool := true)
    (title : String := "From S3 XLSX") : Except PyError Dict × ToolEnv :=
  let call := s3_get_object env.env_client env.s3 bucket key
  let env' := { env with s3 := call.2 }
  match call.1 with
  | .noCredentials => (.error .noCredentialsError, env')
  | .clientError code msg => (.error (.botoClientError code msg), env')
  | .ok xlsx_bytes =>
      let rows := load_workbook_rows xlsx_bytes
      match rows with
      | [] => (.error (.exception "IndexError: list index out of range"), env')
      | header :: body =>
          match header with
          | [] => (.error (.exception "IndexError: list index out of range"), env')
          | h0 :: _ =>
              let records := body.map (recordOf header)
              let xc := match x_col with
                | some x => x
                | none => h0
              let autoY :=
                let cand := header.filter (fun cname =>
                  !(cname == xc) && (records.take 8).any (fun rec =>
                    numLike ((alookup cname rec).getD "")))
                if cand.isEmpty then (header.drop 1).take 1 else cand
              let yc := match y_cols with
                | some ys => if ys.isEmpty then autoY else ys
                | none => autoY
              match env.current_id with
              | none =>
                  (.ok [("error", V.s "No presentation loaded. Create or open one first.")],
                   env')
              | some pres_id =>
                  match alookup pres_id env.presentations with
                  | none =>
                      (.ok [("error", V.s "No presentation loaded. Create or open one first.")],
                       env')
                  | some prs =>
                      let prs' := { prs with
                        slideCount := prs.slideCount + (if add_table then 2 else 1) }
                      (.ok [("presentation_id", V.s pres_id),
                            ("rows", V.n records.length),
                            ("x_col", V.s xc),
                            ("y_cols", V.vlist (yc.map V.s))],
                       { env' with presentations := aset pres_id prs' env.presentations })

end s3_xlsx_tools

/-! ### Facts about the transfer layer -/

/-- The body bytes stored at `bucket/key`, `none` when the bucket or the
key is absent. -/
def lookupObjBody (st : S3State) (bucket key : String) : Option Bytes :=
  match alookup bucket st.buckets with
  | none => none
  | some objs => (alookup key objs).map S3Object.body

theorem mem_resKeys_aset (a k : String) (v : V) (d : Dict) :
    a ∈ resKeys (aset k v d) ↔ a ∈ resKeys d ∨ a = k := by
  induction d with
  | nil => simp [aset, resKeys]
  | cons hd t ih =>
      obtain ⟨k', v'⟩ := hd
      by_cases e : k' = k
      · subst e
        simp [aset, resKeys]
        tauto
      · simp [aset, resKeys, e] at ih ⊢
        rw [ih]
        tauto

/-- Characterization of a successful upload (s3_utils.py lines 67-98): the
credentials were accepted, the result dictionary is exactly the literal of
lines 92-98 with `size_bytes` the serialized length, the full serialized
body is stored at `bucket/key`, and the accepted-credential set is
unchanged. -/
theorem upload_ok_characterization (p : Presentation) (c : Client) (st : S3State)
    (bucket key : String) (md : Option (List (String × String))) (d : Dict)
    (h : (s3_utils.upload_presentation_to_s3 p c st bucket key md).1 = .ok d) :
    (c.access_key, c.secret_key) ∈ st.validKeys ∧
    d = [("success", V.b true), ("bucket", V.s bucket), ("key", V.s key),
         ("size_bytes", V.n (pptxSave p).length),
         ("message", V.s ("Successfully uploaded presentation to s3://" ++
           bucket ++ "/" ++ key))] ∧
    lookupObjBody (s3_utils.upload_presentation_to_s3 p c st bucket key md).2 bucket key
      = some (pptxSave p) ∧
    (s3_utils.upload_presentation_to_s3 p c st bucket key md).2.validKeys
      = st.validKeys := by
  unfold s3_utils.upload_presentation_to_s3 s3_put_object logCall at h ⊢
  by_cases hc : (c.access_key, c.secret_key) ∈ st.validKeys
  · cases hb : alookup bucket st.buckets with
    | none => simp [hc, hb] at h
    | some objs =>
        simp only [hc, hb, if_true] at h
        simp at h
        refine ⟨hc, h.symm, ?_, ?_⟩
        · simp [hc, hb, lookupObjBody, alookup_aset_self]
        · simp [hc, hb]
  · simp [hc] at h

/-! ### Claims C4-C7 -/

/-- A concrete client fixture used by the witnesses. -/
def witClient : Client := ⟨"http://localhost:9000", "minioadmin", "miniosecret", "us-east-1"⟩

/-- A concrete backend fixture accepting `witClient`'s credentials, with one
empty bucket. -/
def witState : S3State := ⟨[("minioadmin", "miniosecret")], [("test-bucket", [])], []⟩

/-- A concrete document fixture (two slides, the title of test_s3.py). -/
def witPres : Presentation := ⟨2, "S3 Storage Test"⟩

/-- C4: whenever uploading a document to a bucket/key succeeds, downloading
from the same bucket/key of the resulting backend state yields a document
with the same slide count and the same title text: serialize-to-buffer,
store, fetch, deserialize-from-buffer is a round trip through storage. -/
theorem upload_download_roundtrip (p : Presentation) (c : Client) (st : S3State)
    (bucket key : String) (md : Option (List (String × String)))
    (h : (s3_utils.upload_presentation_to_s3 p c st bucket key md).1.isOk = true) :
    ∃ p', (s3_utils.download_presentation_from_s3 c
        (s3_utils.upload_presentation_to_s3 p c st bucket key md).2 bucket key).1 = .ok p'
      ∧ p'.slideCount = p.slideCount ∧ p'.titleText = p.titleText := by
  cases hu : (s3_utils.upload_presentation_to_s3 p c st bucket key md).1 with
  | error e => rw [hu] at h; simp [Except.isOk, Except.toBool] at h
  | ok d =>
      obtain ⟨hc, hd, hbody, hvk⟩ := upload_ok_characterization p c st bucket key md d hu
      obtain ⟨objs, o, hbk, hk, hob⟩ :
          ∃ objs o, alookup bucket
              (s3_utils.upload_presentation_to_s3 p c st bucket key md).2.buckets
              = some objs ∧
            alookup key objs = some o ∧ o.body = pptxSave p := by
        unfold lookupObjBody at hbody
        cases hbk : alookup bucket
            (s3_utils.upload_presentation_to_s3 p c st bucket key md).2.buckets with
        | none => rw [hbk] at hbody; simp at hbody
        | some objs =>
            rw [hbk] at hbody
            simp only [Option.map_eq_some'] at hbody
            obtain ⟨o, hk, hob⟩ := hbody
            exact ⟨objs, o, rfl, hk, hob⟩
      have hcv : (c.access_key, c.secret_key) ∈
          (s3_utils.upload_presentation_to_s3 p c st bucket key md).2.validKeys := by
        rw [hvk]; exact hc
      refine ⟨p, ?_, rfl, rfl⟩
      simp [s3_utils.download_presentation_from_s3, s3_download_fileobj, logCall,
        hcv, hbk, hk, hob, pptxOpen_pptxSave]

/-- Witness for C4 at a concrete document, client, backend, bucket and
key. -/
theorem upload_download_roundtrip_witness :
    ∃ p', (s3_utils.download_presentation_from_s3 witClient
        (s3_utils.upload_presentation_to_s3 witPres witClient witState
          "test-bucket" "decks/sample.pptx" none).2 "test-bucket" "decks/sample.pptx").1
        = .ok p'
      ∧ p'.slideCount = witPres.slideCount ∧ p'.titleText = witPres.titleText :=
  upload_download_roundtrip witPres witClient witState
    "test-bucket" "decks/sample.pptx" none (by decide)

/-- C5: a successful upload reports `size_bytes` equal to the exact byte
length of the serialized document, and the stored object's body is the
whole serialized buffer — no partial write is reported as success. -/
theorem upload_reports_exact_size (p : Presentation) (c : Client) (st : S3State)
    (bucket key : String) (md : Option (List (String × String)))
    (h : (s3_utils.upload_presentation_to_s3 p c st bucket key md).1.isOk = true) :
    ∃ d, (s3_utils.upload_presentation_to_s3 p c st bucket key md).1 = .ok d ∧
      alookup "size_bytes" d = some (V.n (pptxSave p).length) ∧
      lookupObjBody (s3_utils.upload_presentation_to_s3 p c st bucket key md).2 bucket key
        = some (pptxSave p) := by
  cases hu : (s3_utils.upload_presentation_to_s3 p c st bucket key md).1 with
  | error e => rw [hu] at h; simp [Except.isOk, Except.toBool] at h
  | ok d =>
      obtain ⟨hc, hd, hbody, hvk⟩ := upload_ok_characterization p c st bucket key md d hu
      refine ⟨d, rfl, ?_, hbody⟩
      rw [hd]
      rfl

/-- Witness for C5: the fixture document serializes to 16 bytes and the
upload reports exactly that. -/
theorem upload_reports_exact_size_witness :
    ∃ d, (s3_utils.upload_presentation_to_s3 witPres witClient witState
        "test-bucket" "decks/size.pptx" none).1 = .ok d ∧
      alookup "size_bytes" d = some (V.n (pptxSave witPres).length) ∧
      lookupObjBody (s3_utils.upload_presentation_to_s3 witPres witClient witState
        "test-bucket" "decks/size.pptx" none).2 "test-bucket" "decks/size.pptx"
        = some (pptxSave witPres) :=
  upload_reports_exact_size witPres witClient witState
    "test-bucket" "decks/size.pptx" none (by decide)

/-- C6: when the credentials are accepted but the object (or its bucket) is
absent, download and metadata-fetch fail with the `FileNotFoundError`
constructor — the single NotFound signal — which is distinct by
constructor from the credential (`ValueError`), generic (`Exception`) and
`NoCredentialsError` failures. -/
theorem download_absent_is_notfound (c : Client) (st : S3State) (bucket key : String)
    (hc : (c.access_key, c.secret_key) ∈ st.validKeys)
    (habs : lookupObjBody st bucket key = none) :
    (∃ m, (s3_utils.download_presentation_from_s3 c st bucket key).1 =
        .error (.fileNotFoundError m)) ∧
    (∃ m, (s3_utils.get_s3_object_metadata c st bucket key).1 =
        .error (.fileNotFoundError m)) ∧
    (∀ m m', PyError.fileNotFoundError m ≠ PyError.valueError m' ∧
             PyError.fileNotFoundError m ≠ PyError.exception m' ∧
             PyError.fileNotFoundError m ≠ PyError.noCredentialsError) := by
  have hdist : ∀ m m' : String,
      PyError.fileNotFoundError m ≠ PyError.valueError m' ∧
      PyError.fileNotFoundError m ≠ PyError.exception m' ∧
      PyError.fileNotFoundError m ≠ PyError.noCredentialsError :=
    fun m m' => ⟨by simp, by simp, by simp⟩
  unfold lookupObjBody at habs
  cases hbk : alookup bucket st.buckets with
  | none =>
      refine ⟨⟨"Bucket not found: " ++ bucket, ?_⟩,
              ⟨"Object not found: s3://" ++ bucket ++ "/" ++ key, ?_⟩, hdist⟩
      · simp [s3_utils.download_presentation_from_s3, s3_download_fileobj, logCall, hc, hbk]
      · simp [s3_utils.get_s3_object_metadata, s3_head_object, logCall, hc, hbk]
  | some objs =>
      rw [hbk] at habs
      simp only [Option.map_eq_none'] at habs
      have hk : alookup key objs = none := habs
      refine ⟨⟨"Object not found: s3://" ++ bucket ++ "/" ++ key, ?_⟩,
              ⟨"Object not found: s3://" ++ bucket ++ "/" ++ key, ?_⟩, hdist⟩
      · simp [s3_utils.download_presentation_from_s3, s3_download_fileobj, logCall,
          hc, hbk, hk]
      · simp [s3_utils.get_s3_object_metadata, s3_head_object, logCall, hc, hbk, hk]

/-- Witness for C6: fetching a key that was never uploaded to the fixture
bucket. -/
theorem download_absent_is_notfound_witness :
    (∃ m, (s3_utils.download_presentation_from_s3 witClient witState
        "test-bucket" "missing.pptx").1 = .error (.fileNotFoundError m)) ∧
    (∃ m, (s3_utils.get_s3_object_metadata witClient witState
        "test-bucket" "missing.pptx").1 = .error (.fileNotFoundError m)) ∧
    (∀ m m', PyError.fileNotFoundError m ≠ PyError.valueError m' ∧
             PyError.fileNotFoundError m ≠ PyError.exception m' ∧
             PyError.fileNotFoundError m ≠ PyError.noCredentialsError) :=
  download_absent_is_notfound witClient witState "test-bucket" "missing.pptx"
    (by decide) (by decide)

/-- C7: when the backend rejects the client's credentials
(`NoCredentialsError`), upload and download fail with the
credential-specific `ValueError "Invalid S3 credentials provided"`, which
is distinct by constructor from the NotFound (`FileNotFoundError`) and
generic (`Exception`) failures. -/
theorem rejected_credentials_distinct (p : Presentation) (c : Client) (st : S3State)
    (bucket key : String) (md : Option (List (String × String)))
    (hc : (c.access_key, c.secret_key) ∉ st.validKeys) :
    (s3_utils.upload_presentation_to_s3 p c st bucket key md).1 =
      .error (.valueError "Invalid S3 credentials provided") ∧
    (s3_utils.download_presentation_from_s3 c st bucket key).1 =
      .error (.valueError "Invalid S3 credentials provided") ∧
    (∀ m m', PyError.valueError m ≠ PyError.fileNotFoundError m' ∧
             PyError.valueError m ≠ PyError.exception m') := by
  refine ⟨?_, ?_, fun m m' => ⟨by simp, by simp⟩⟩
  · simp [s3_utils.upload_presentation_to_s3, s3_put_object, logCall, hc]
  · simp [s3_utils.download_presentation_from_s3, s3_download_fileobj, logCall, hc]

/-- Witness for C7: a client whose credential pair the fixture backend does
not accept. -/
theorem rejected_credentials_distinct_witness :
    (s3_utils.upload_presentation_to_s3 witPres ⟨"e", "bad", "creds", "us-east-1"⟩
        witState "test-bucket" "deck.pptx" none).1 =
      .error (.valueError "Invalid S3 credentials provided") ∧
    (s3_utils.download_presentation_from_s3 ⟨"e", "bad", "creds", "us-east-1"⟩
        witState "test-bucket" "deck.pptx").1 =
      .error (.valueError "Invalid S3 credentials provided") ∧
    (∀ m m', PyError.valueError m ≠ PyError.fileNotFoundError m' ∧
             PyError.valueError m ≠ PyError.exception m') :=
  rejected_credentials_distinct witPres ⟨"e", "bad", "creds", "us-east-1"⟩ witState
    "test-bucket" "deck.pptx" none (by decide)

/-! ### Claims C8-C10 -/

/-- The result-map discipline of spec §6/§7: a tool's dictionary is either
exactly the single-key error map or carries no `error` key at all — never
both an error string and success fields. -/
def wellFormedResult (d : Dict) : Prop :=
  (∃ m, d = [("error", V.s m)]) ∨ "error" ∉ resKeys d

theorem list_ok_keys (c : Client) (st : S3State) (b : String) (pfx : Option String)
    (mx : Nat) (d : Dict) (h : (s3_utils.list_s3_objects c st b pfx mx).1 = .ok d) :
    resKeys d = ["bucket", "prefix", "object_count", "objects", "is_truncated"] := by
  unfold s3_utils.list_s3_objects s3_list_objects_v2 logCall at h
  by_cases hc : (c.access_key, c.secret_key) ∈ st.validKeys
  · cases hb : alookup b st.buckets with
    | none => simp [hc, hb] at h
    | some objs =>
        simp [hc, hb] at h
        subst h
        simp [resKeys]
  · simp [hc] at h

theorem delete_ok_keys (c : Client) (st : S3State) (b k : String) (d : Dict)
    (h : (s3_utils.delete_s3_object c st b k).1 = .ok d) :
    resKeys d = ["success", "bucket", "key", "message"] := by
  unfold s3_utils.delete_s3_object s3_delete_object logCall at h
  by_cases hc : (c.access_key, c.secret_key) ∈ st.validKeys
  · cases hb : alookup b st.buckets with
    | none => simp [hc, hb] at h
    | some objs =>
        simp [hc, hb] at h
        subst h
        simp [resKeys]
  · simp [hc] at h

theorem head_ok_keys (c : Client) (st : S3State) (b k : String) (d : Dict)
    (h : (s3_utils.get_s3_object_metadata c st b k).1 = .ok d) :
    resKeys d = ["bucket", "key", "size_bytes", "last_modified", "content_type",
      "etag", "metadata"] := by
  unfold s3_utils.get_s3_object_metadata s3_head_object logCall at h
  by_cases hc : (c.access_key, c.secret_key) ∈ st.validKeys
  · cases hb : alookup b st.buckets with
    | none => simp [hc, hb] at h
    | some objs =>
        cases hk : alookup k objs with
        | none => simp [hc, hb, hk] at h
        | some o =>
            simp [hc, hb, hk] at h
            subst h
            simp [resKeys]
  · simp [hc] at h

theorem wf_configure (env : ToolEnv) (cn eu ak sk : String) (rg : Option String) :
    wellFormedResult (s3_tools.configure_s3_connection env cn eu ak sk rg).1 := by
  right
  simp [s3_tools.configure_s3_connection, resKeys]

theorem wf_upload_tool (env : ToolEnv) (b k cn : String) (pid : Option String)
    (md : Option (List (String × String))) :
    wellFormedResult (s3_tools.upload_presentation_to_s3 env b k cn pid md).1 := by
  unfold s3_tools.upload_presentation_to_s3
  split
  · exact Or.inl ⟨_, rfl⟩
  · next cl h1 =>
      split
      · next i =>
          dsimp only
          split
          · exact Or.inl ⟨_, rfl⟩
          · next pres h3 =>
              split
              · next result h4 =>
                  obtain ⟨_, hd, _, _⟩ :=
                    upload_ok_characterization pres cl env.s3 b k md result h4
                  right
                  subst hd
                  simp only [mem_resKeys_aset]
                  simp [resKeys]
              · next e h4 => exact Or.inl ⟨_, rfl⟩
      · dsimp only
        split
        · exact Or.inl ⟨_, rfl⟩
        · next i =>
            split
            · exact Or.inl ⟨_, rfl⟩
            · next pres h3 =>
                split
                · next result h4 =>
                    obtain ⟨_, hd, _, _⟩ :=
                      upload_ok_characterization pres cl env.s3 b k md result h4
                    right
                    subst hd
                    simp only [mem_resKeys_aset]
                    simp [resKeys]
                · next e h4 => exact Or.inl ⟨_, rfl⟩

theorem wf_download_tool (env : ToolEnv) (b k cn : String) (i : Option String) :
    wellFormedResult (s3_tools.download_presentation_from_s3 env b k cn i).1 := by
  unfold s3_tools.download_presentation_from_s3
  cases h1 : alookup cn env.s3_clients with
  | none => simp only [h1]; exact Or.inl ⟨_, rfl⟩
  | some cl =>
      cases h2 : (s3_utils.download_presentation_from_s3 cl env.s3 b k).1 with
      | ok pres =>
          simp only [h1, h2]
          right
          simp [resKeys]
      | error e =>
          cases e <;> simp only [h1, h2] <;> exact Or.inl ⟨_, rfl⟩

theorem wf_list_tool (env : ToolEnv) (b cn : String) (pfx : Option String) (mx : Nat) :
    wellFormedResult (s3_tools.list_s3_presentations env b cn pfx mx).1 := by
  unfold s3_tools.list_s3_presentations
  cases h1 : alookup cn env.s3_clients with
  | none => simp only [h1]; exact Or.inl ⟨_, rfl⟩
  | some cl =>
      cases h2 : (s3_utils.list_s3_objects cl env.s3 b pfx mx).1 with
      | ok result =>
          have hk := list_ok_keys cl env.s3 b pfx mx result h2
          simp only [h1, h2]
          right
          simp [mem_resKeys_aset, hk]
      | error e => simp only [h1, h2]; exact Or.inl ⟨_, rfl⟩

theorem wf_delete_tool (env : ToolEnv) (b k cn : String) :
    wellFormedResult (s3_tools.delete_s3_presentation env b k cn).1 := by
  unfold s3_tools.delete_s3_presentation
  cases h1 : alookup cn env.s3_clients with
  | none => simp only [h1]; exact Or.inl ⟨_, rfl⟩
  | some cl =>
      cases h2 : (s3_utils.delete_s3_object cl env.s3 b k).1 with
      | ok result =>
          have hk := delete_ok_keys cl env.s3 b k result h2
          simp only [h1, h2]
          right
          simp [mem_resKeys_aset, hk]
      | error e => simp only [h1, h2]; exact Or.inl ⟨_, rfl⟩

theorem wf_info_tool (env : ToolEnv) (b k cn : String) :
    wellFormedResult (s3_tools.get_s3_presentation_info env b k cn).1 := by
  unfold s3_tools.get_s3_presentation_info
  cases h1 : alookup cn env.s3_clients with
  | none => simp only [h1]; exact Or.inl ⟨_, rfl⟩
  | some cl =>
      cases h2 : (s3_utils.get_s3_object_metadata cl env.s3 b k).1 with
      | ok result =>
          have hk := head_ok_keys cl env.s3 b k result h2
          simp only [h1, h2]
          right
          simp [mem_resKeys_aset, hk]
      | error e =>
          cases e <;> simp only [h1, h2] <;> exact Or.inl ⟨_, rfl⟩

theorem wf_connections_tool (env : ToolEnv) :
    wellFormedResult (s3_tools.list_s3_connections env).1 := by
  right
  simp [s3_tools.list_s3_connections, resKeys]

/-- A tool environment whose connection registry is empty but whose
backend and environment client are the usual fixtures. -/
def witEnvEmpty : ToolEnv :=
  { s3_clients := [], presentations := [("p1", witPres)], current_id := some "p1",
    env_client := witClient, s3 := witState }

/-- A tool environment with the default connection configured and no
loaded presentation, over the usual backend fixture. -/
def witEnvNoPres : ToolEnv :=
  { s3_clients := [("default", witClient)], presentations := [], current_id := none,
    env_client := witClient, s3 := witState }

/-- C8 counterexample: the claim quantifies over every remote-callable
tool, including `build_slides_from_s3_xlsx` (s3_xlsx_tools.py), whose body
is not wrapped in try/except.  At a backend whose bucket exists but whose
key is absent, its `s3.get_object` call (line 44) raises a `ClientError`
with code `NoSuchKey` that escapes the tool as a raw fault instead of
being returned as an error dictionary. -/
theorem build_slides_exception_escapes :
    (s3_xlsx_tools.build_slides_from_s3_xlsx witEnvNoPres "test-bucket" "missing.xlsx").1
      = .error (.botoClientError "NoSuchKey" "The specified key does not exist.") := rfl

/-- C8 amended: every tool registered by `register_s3_tools`
(s3_tools.py) — configure, upload, download, list, delete, metadata-fetch
and list-connections — returns, for every input and every backend
outcome, a result dictionary that is either the single-key error map or
carries no error key (never both), and, being a total function into plain
result pairs, lets no exception escape; the exception-escape guarantee
does not extend to `build_slides_from_s3_xlsx` of s3_xlsx_tools.py. -/
theorem s3_tools_result_shape :
    (∀ env cn eu ak sk rg,
      wellFormedResult (s3_tools.configure_s3_connection env cn eu ak sk rg).1) ∧
    (∀ env b k cn pid md,
      wellFormedResult (s3_tools.upload_presentation_to_s3 env b k cn pid md).1) ∧
    (∀ env b k cn i,
      wellFormedResult (s3_tools.download_presentation_from_s3 env b k cn i).1) ∧
    (∀ env b cn pfx mx,
      wellFormedResult (s3_tools.list_s3_presentations env b cn pfx mx).1) ∧
    (∀ env b k cn,
      wellFormedResult (s3_tools.delete_s3_presentation env b k cn).1) ∧
    (∀ env b k cn,
      wellFormedResult (s3_tools.get_s3_presentation_info env b k cn).1) ∧
    (∀ env, wellFormedResult (s3_tools.list_s3_connections env).1) :=
  ⟨wf_configure, wf_upload_tool, wf_download_tool, wf_list_tool, wf_delete_tool,
   wf_info_tool, wf_connections_tool⟩

/-- C9: invoking any of the five S3 operations (upload, download, list,
delete, metadata-fetch) with a connection name absent from the registry
returns the connection-not-configured error dictionary and leaves the
whole environment — in particular the backend call log — unchanged: the
failure happens before any network call is attempted. -/
theorem unconfigured_connection_fails_before_network (env : ToolEnv)
    (connection_name bucket key : String) (pid : Option String)
    (md : Option (List (String × String))) (pfx : Option String) (mx : Nat)
    (i : Option String)
    (h : alookup connection_name env.s3_clients = none) :
    s3_tools.upload_presentation_to_s3 env bucket key connection_name pid md =
      ([("error", V.s (s3_tools.connectionNotFoundMsg connection_name))], env) ∧
    s3_tools.download_presentation_from_s3 env bucket key connection_name i =
      ([("error", V.s (s3_tools.connectionNotFoundMsg connection_name))], env) ∧
    s3_tools.list_s3_presentations env bucket connection_name pfx mx =
      ([("error", V.s (s3_tools.connectionNotFoundMsg connection_name))], env) ∧
    s3_tools.delete_s3_presentation env bucket key connection_name =
      ([("error", V.s (s3_tools.connectionNotFoundMsg connection_name))], env) ∧
    s3_tools.get_s3_presentation_info env bucket key connection_name =
      ([("error", V.s (s3_tools.connectionNotFoundMsg connection_name))], env) := by
  refine ⟨?_, ?_, ?_, ?_, ?_⟩ <;>
    simp [s3_tools.upload_presentation_to_s3, s3_tools.download_presentation_from_s3,
      s3_tools.list_s3_presentations, s3_tools.delete_s3_presentation,
      s3_tools.get_s3_presentation_info, h]

/-- Witness for C9: the empty registry with the name `default`. -/
theorem unconfigured_connection_fails_before_network_witness :
    s3_tools.upload_presentation_to_s3 witEnvEmpty "test-bucket" "deck.pptx"
        "default" none none =
      ([("error", V.s (s3_tools.connectionNotFoundMsg "default"))], witEnvEmpty) ∧
    s3_tools.download_presentation_from_s3 witEnvEmpty "test-bucket" "deck.pptx"
        "default" none =
      ([("error", V.s (s3_tools.connectionNotFoundMsg "default"))], witEnvEmpty) ∧
    s3_tools.list_s3_presentations witEnvEmpty "test-bucket" "default" none 100 =
      ([("error", V.s (s3_tools.connectionNotFoundMsg "default"))], witEnvEmpty) ∧
    s3_tools.delete_s3_presentation witEnvEmpty "test-bucket" "deck.pptx" "default" =
      ([("error", V.s (s3_tools.connectionNotFoundMsg "default"))], witEnvEmpty) ∧
    s3_tools.get_s3_presentation_info witEnvEmpty "test-bucket" "deck.pptx" "default" =
      ([("error", V.s (s3_tools.connectionNotFoundMsg "default"))], witEnvEmpty) :=
  unconfigured_connection_fails_before_network witEnvEmpty "default" "test-bucket"
    "deck.pptx" none none none 100 none rfl

/-- C10: whenever the download tool returns an error dictionary the
presentations registry is unchanged, and whenever it returns success the
new registry is exactly the old one with an entry added under the
`presentation_id` of the result dictionary. -/
theorem download_tool_registry_discipline (env : ToolEnv)
    (bucket key connection_name : String) (i : Option String) :
    ("error" ∈ resKeys
        (s3_tools.download_presentation_from_s3 env bucket key connection_name i).1 →
      (s3_tools.download_presentation_from_s3 env bucket key connection_name i).2.presentations
        = env.presentations) ∧
    ("error" ∉ resKeys
        (s3_tools.download_presentation_from_s3 env bucket key connection_name i).1 →
      ∃ pid p, alookup "presentation_id"
          (s3_tools.download_presentation_from_s3 env bucket key connection_name i).1
          = some (V.s pid) ∧
        (s3_tools.download_presentation_from_s3 env bucket key connection_name i).2.presentations
          = aset pid p env.presentations) := by
  unfold s3_tools.download_presentation_from_s3
  cases h1 : alookup connection_name env.s3_clients with
  | none => simp [h1, resKeys]
  | some cl =>
      cases h2 : (s3_utils.download_presentation_from_s3 cl env.s3 bucket key).1 with
      | ok pres =>
          simp only [h1, h2]
          constructor
          · intro hmem
            exact absurd hmem (by simp [resKeys])
          · intro _
            exact ⟨_, pres, rfl, rfl⟩
      | error e =>
          cases e <;> simp [h1, h2, resKeys]

/-- Witness for C10: an unconfigured connection returns an error
dictionary and the registry is untouched. -/
theorem download_tool_registry_discipline_witness :
    (s3_tools.download_presentation_from_s3 witEnvEmpty "test-bucket" "missing.pptx"
        "default" none).2.presentations = witEnvEmpty.presentations :=
  (download_tool_registry_discipline witEnvEmpty "test-bucket" "missing.pptx"
    "default" none).1 (by decide)
